import Mathlib

/-!
Shallow embedding of the PASAT-style trainer engine in `src/script.js`.

The embedding translates the program's shared mutable globals into explicit
state records and its deferred callbacks into pure step functions on that
state; the single-threaded event loop executes each callback body atomically,
so each step function below is one callback body (or one synchronous handler).
UI rendering, audio playback and the DOM are external collaborators and are
represented only through the values the engine logic reads from them (the
"input surface" candidate value, the generated digit).  JavaScript numbers
are modelled as `Int` (digits, answers, timestamps) and `Nat` (counters,
ISI milliseconds); the settings records that carry fractional values
(volume, playback rate) use `ℚ`.  JavaScript `null` is `Option.none`; the
one place where an out-of-bounds array read produces `undefined`/`NaN`
(`calculateNbackAnswer`) uses a dedicated three-valued result type.
-/

/-- Result of the JS function `calculateNbackAnswer` (script.js:351-358):
`jnull` models `return null`, `jnum a` a numeric result, and `jnan` the
`NaN` produced by `currentNum + sequence[i]` when index `i` is out of
bounds (the read yields `undefined`). -/
inductive JSResult where
  | jnull : JSResult
  | jnan : JSResult
  | jnum : Int → JSResult
deriving DecidableEq, Repr

/-- script.js:351-358.  `calculateNbackAnswer(currentNum, sequence, nback)`:
returns `null` when `sequence.length < nback`; otherwise reads
`sequence[sequence.length - nback - 1]` and returns its sum with
`currentNum`.  A negative index (which happens exactly when
`sequence.length = nback`) reads `undefined`, so the sum is `NaN`. -/
def calculateNbackAnswer (currentNum : Int) (sequence : List Int) (nback : Nat) : JSResult :=
  if sequence.length < nback then JSResult.jnull
  else if 0 ≤ (sequence.length : Int) - nback - 1 ∧
      ((sequence.length : Int) - nback - 1).toNat < sequence.length then
    JSResult.jnum (currentNum + sequence.getD ((sequence.length : Int) - nback - 1).toNat 0)
  else JSResult.jnan

/-- The counters and difficulty state shared by both resolution paths:
globals `totalCorrect`, `totalAttempts`, `consecutiveCorrect`,
`consecutiveIncorrect`, `currentISIValue`, `lowestISI` (script.js:30-36). -/
structure Scoreboard where
  totalCorrect : Nat
  totalAttempts : Nat
  consecutiveCorrect : Nat
  consecutiveIncorrect : Nat
  currentISIValue : Nat
  lowestISI : Nat
deriving DecidableEq, Repr

/-- script.js:763-793, the counter/difficulty block of `processAnswer`:
increment totals and streaks according to `isCorrect`, then either apply
the adaptive ISI rule (non-manual modes) or re-pin the ISI to the selected
value (manual mode). -/
def scoreResolution (isManualMode : Bool) (selectedISI : Nat) (isCorrect : Bool)
    (b : Scoreboard) : Scoreboard :=
  let b1 :=
    if isCorrect then
      { b with totalAttempts := b.totalAttempts + 1,
               totalCorrect := b.totalCorrect + 1,
               consecutiveCorrect := b.consecutiveCorrect + 1,
               consecutiveIncorrect := 0 }
    else
      { b with totalAttempts := b.totalAttempts + 1,
               consecutiveCorrect := 0,
               consecutiveIncorrect := b.consecutiveIncorrect + 1 }
  if ¬ isManualMode then
    if b1.consecutiveCorrect ≥ 4 then
      let newISI := max 500 (b1.currentISIValue - 100)
      { b1 with currentISIValue := newISI,
                lowestISI := min b1.lowestISI newISI,
                consecutiveCorrect := 0 }
    else if b1.consecutiveIncorrect ≥ 4 then
      { b1 with currentISIValue := min 5000 (b1.currentISIValue + 100),
                consecutiveIncorrect := 0 }
    else b1
  else
    { b1 with currentISIValue := selectedISI }

/-- script.js:615-628, the counter/difficulty block of the late (stale-trial)
branch of the deadline callback: always an incorrect, no-answer resolution;
only the consecutive-incorrect ISI rule is applied, and only outside manual
mode.  `totalCorrect` and `lowestISI` are untouched. -/
def scoreNoAnswerLate (isManualMode : Bool) (b : Scoreboard) : Scoreboard :=
  let b1 := { b with totalAttempts := b.totalAttempts + 1,
                     consecutiveCorrect := 0,
                     consecutiveIncorrect := b.consecutiveIncorrect + 1 }
  if ¬ isManualMode then
    if b1.consecutiveIncorrect ≥ 4 then
      { b1 with currentISIValue := min 5000 (b1.currentISIValue + 100),
                consecutiveIncorrect := 0 }
    else b1
  else b1

/-- script.js:397-398, the ISI initialisation in `startSession`:
`selectedISI = Math.max(500, selectedISI); currentISIValue = selectedISI;`.
Only the lower bound is enforced. -/
def startSessionISI (selectedISI : Nat) : Nat := max 500 selectedISI

/-- JavaScript `x || d` for a numeric `x` modelled as `Nat`: `0` is falsy. -/
def jsOrNat (v d : Nat) : Nat := if v = 0 then d else v

/-- JavaScript `x || d` for a numeric `x` modelled as `ℚ`: `0` is falsy. -/
def jsOrRat (v d : ℚ) : ℚ := if v = 0 then d else v

/-- script.js:1055, inside `loadCustomModeSettings`:
`customModeSettings.selectedISI = settings.selectedISI || 3000;` — the
stored ISI is taken over verbatim (no clamping) whenever it is non-zero. -/
def loadCustomModeSelectedISI (stored : Nat) : Nat := jsOrNat stored 3000

example : calculateNbackAnswer 2 [4, 7, 2] 1 = JSResult.jnum 9 := by decide
example : calculateNbackAnswer 7 [4, 7] 1 = JSResult.jnum 11 := by decide
example : calculateNbackAnswer 4 [4] 1 = JSResult.jnan := by decide
example : calculateNbackAnswer 4 [] 1 = JSResult.jnull := by decide

/-- One trial record as pushed into `sessionHistory` (script.js:531-541).
`userAnswer`, `correct` start `null`; `responseTime` is added at
resolution, so it is modelled as an `Option` that starts `none`. -/
structure TrialRec where
  nbackValue : Nat
  currentNumber : Int
  previousNumber : Int
  correctAnswer : Int
  userAnswer : Option Int
  correct : Option Bool
  isi : Nat
  trialId : Nat
  responseTime : Option Int
deriving DecidableEq, Repr

/-- The engine's shared mutable globals (script.js:9-38, 299-317, and the
scoreboard globals gathered in `Scoreboard`).  `inputSurface` is the
"current candidate answer" capability: the selected number-pad button or
the parsed text-field content (`none` when empty/unparsable).
`currentIntervalId` records whether the presentation timer is pending.
Globals that only drive UI rendering or audio playback
(`lastPresentedNumber`, `currentNumber`, `audioInitialized`, ...) are
omitted: no modelled step reads them. -/
structure SessionState where
  sessionActive : Bool
  correctAnswer : Option Int
  processingAnswer : Bool
  answerProcessed : Bool
  audioPlayInProgress : Bool
  forcePresentNextNumber : Bool
  nextNumberScheduled : Bool
  currentIntervalId : Bool
  nbackValue : Nat
  numberSequence : List Int
  sessionHistory : List TrialRec
  currentTrialId : Nat
  score : Scoreboard
  selectedISI : Nat
  isManualMode : Bool
  inputSurface : Option Int
  nextPresentationTime : Int
deriving DecidableEq, Repr

/-- The correctness comparison of `processAnswer` (script.js:752-760):
`null`/`undefined` is always incorrect, otherwise numeric equality with
the trial's correct answer. -/
def isCorrectOf (userAnswer : Option Int) (correctAnswer : Int) : Bool :=
  match userAnswer with
  | none => false
  | some v => v == correctAnswer

/-- script.js:717-826, the centralized `processAnswer(userAnswer)` callback
body.  Returns the function's boolean result together with the updated
state.  The `processingAnswer` mutual-exclusion flag is set on entry and
cleared again on every exit path of the source, so across the atomic
callback it is unchanged; the guards are modelled in source order. -/
def processAnswer (s : SessionState) (now : Int) (userAnswer : Option Int) :
    Bool × SessionState :=
  if s.processingAnswer ∨ s.correctAnswer = none then (false, s)
  else
    match s.sessionHistory.getLast? with
    | none => (false, s)
    | some currentTrial =>
      if currentTrial.userAnswer ≠ none then (false, s)
      else if s.correctAnswer ≠ some currentTrial.correctAnswer then (false, s)
      else
        let responseTime : Int :=
          now - (s.nextPresentationTime - (s.score.currentISIValue : Int))
        let isCorrect := isCorrectOf userAnswer currentTrial.correctAnswer
        let resolved := { currentTrial with
          responseTime := some responseTime,
          userAnswer := userAnswer,
          correct := some isCorrect }
        (true, { s with
          sessionHistory := s.sessionHistory.dropLast ++ [resolved],
          score := scoreResolution s.isManualMode s.selectedISI isCorrect s.score,
          inputSurface := if isCorrect then none else s.inputSurface })

/-- script.js:265-280, `canProcessButtonClick()`. -/
def canProcessButtonClick (s : SessionState) : Prop :=
  ¬ s.processingAnswer ∧ s.correctAnswer ≠ none ∧
    ¬ s.audioPlayInProgress ∧ ¬ s.answerProcessed

instance (s : SessionState) : Decidable (canProcessButtonClick s) := by
  unfold canProcessButtonClick; infer_instance

/-- script.js:582-692, the per-trial deadline `setTimeout` callback, armed
right after the stimulus audio settles with the trial's id and
presentation time captured.  If the trial is no longer the last history
entry it is resolved in place as a no-answer incorrect trial
(script.js:595-637); otherwise the current candidate is read from the
input surface and handed to `processAnswer` with `answerProcessed` claimed
first (script.js:638-690), and the input surface is cleared afterwards. -/
def deadlineFire (s : SessionState) (now : Int) (trialId : Nat)
    (trialPresentationTime : Int) : SessionState :=
  if s.answerProcessed ∨ s.processingAnswer then s
  else
    match s.sessionHistory.find? (fun t => t.trialId == trialId) with
    | none => s
    | some targetTrial =>
      if targetTrial.userAnswer ≠ none then s
      else
        let lastTrialIndex := s.sessionHistory.length - 1
        let targetTrialIndex := s.sessionHistory.findIdx (fun t => t.trialId == trialId)
        if targetTrialIndex ≠ lastTrialIndex then
          let responseTime : Int := now - trialPresentationTime
          let resolved := { targetTrial with
            responseTime := some responseTime,
            userAnswer := none,
            correct := some false }
          { s with
            sessionHistory := s.sessionHistory.set targetTrialIndex resolved,
            score := scoreNoAnswerLate s.isManualMode s.score }
        else
          let finalAnswer := s.inputSurface
          let s1 := { s with answerProcessed := true }
          let pa := processAnswer s1 now finalAnswer
          let s2 := if pa.1 then pa.2 else { pa.2 with answerProcessed := false }
          { s2 with inputSurface := none }

/-- script.js:2211-2246, the number-pad `handleButtonInteraction` handler
for a candidate value `v`.  When blocked, all button selections are
cleared; otherwise the button is selected and, only when the candidate
equals the current correct answer (`shouldProcessAnswerImmediately`,
script.js:283-297), `answerProcessed` is claimed and `processAnswer` runs
immediately; a failed claim is rolled back and the selection cleared. -/
def submitCandidate (s : SessionState) (now : Int) (v : Int) : SessionState :=
  if ¬ canProcessButtonClick s then { s with inputSurface := none }
  else
    let s1 := { s with inputSurface := some v }
    if s.correctAnswer = some v then
      let s2 := { s1 with answerProcessed := true }
      let pa := processAnswer s2 now (some v)
      if pa.1 then pa.2 else { pa.2 with answerProcessed := false, inputSurface := none }
    else s1

/-- script.js:473-563, the synchronous core of `presentNextNumber()` up to
the audio await, with the generated digit `d` passed in and the scheduler
timing comparison `nextPresentationTime - Date.now() > 0` passed as
`¬ due`.  Covers the re-entrancy guards (script.js:475-484), the clearing
of the pending presentation timer (script.js:487-490), the cadence
reschedule branch (script.js:496-513), the sequence append and trial
creation (script.js:519-542) and the flag resets (script.js:548-554); the
post-audio re-arming of the presentation and deadline timers
(script.js:565-700) is represented by the `presentStep`/`deadlineFire`
events themselves. -/
def presentStep (s : SessionState) (d : Int) (due : Bool) : SessionState :=
  if ¬ s.sessionActive then s
  else if s.nextNumberScheduled then s
  else if 0 < s.numberSequence.length ∧ ¬ s.forcePresentNextNumber ∧ ¬ due then
    { s with nextNumberScheduled := true, currentIntervalId := true }
  else
    let seq := s.numberSequence ++ [d]
    if s.nbackValue + 1 ≤ seq.length then
      let prev := seq.getD (seq.length - s.nbackValue - 1) 0
      let ans : Int :=
        match calculateNbackAnswer d seq s.nbackValue with
        | JSResult.jnum a => a
        | _ => 0
      let newTrial : TrialRec := {
        nbackValue := s.nbackValue,
        currentNumber := d,
        previousNumber := prev,
        correctAnswer := ans,
        userAnswer := none,
        correct := none,
        isi := s.score.currentISIValue,
        trialId := s.currentTrialId + 1,
        responseTime := none }
      { s with
        currentIntervalId := false,
        forcePresentNextNumber := false,
        numberSequence := seq,
        correctAnswer := some ans,
        currentTrialId := s.currentTrialId + 1,
        sessionHistory := s.sessionHistory ++ [newTrial],
        nextNumberScheduled := false,
        answerProcessed := false,
        processingAnswer := false }
    else
      { s with
        currentIntervalId := false,
        forcePresentNextNumber := false,
        numberSequence := seq,
        nextNumberScheduled := false,
        answerProcessed := if s.correctAnswer ≠ none then false else s.answerProcessed,
        processingAnswer := if s.correctAnswer ≠ none then false else s.processingAnswer }

/-- script.js:854-892, `endSession()`: clears the session timer and the
pending presentation timer (`currentIntervalId`) and resets the in-flight
flags.  The per-trial deadline `setTimeout` of script.js:582 has no stored
handle, so nothing here can cancel it, and neither `correctAnswer` nor
`sessionHistory` is cleared.  (The persistence call `addSessionToHistory`
is modelled separately.) -/
def endSession (s : SessionState) : SessionState :=
  { s with
    currentIntervalId := false,
    sessionActive := false,
    processingAnswer := false,
    answerProcessed := false,
    nextNumberScheduled := false,
    audioPlayInProgress := false,
    forcePresentNextNumber := false }

/-- Persisted beep settings record (script.js:1017-1020). -/
structure BeepSettings where
  enabled : Bool
  volume : ℚ
deriving DecidableEq, Repr

/-- Persisted audio speed settings record (script.js:1023-1025). -/
structure AudioSpeedSettings where
  rate : ℚ
deriving DecidableEq, Repr

/-- Persisted N-back settings record (script.js:1012-1014). -/
structure NbackSettings where
  value : Nat
deriving DecidableEq, Repr

/-- Persisted custom/manual mode settings record (script.js:1006-1009,
310-313): the mode's selected ISI and session duration. -/
structure ModeSettings where
  selectedISI : Nat
  sessionDuration : Nat
deriving DecidableEq, Repr

/-- script.js:1134-1140, `saveBeepSettings()`: the record is written to
storage as JSON.  `JSON.stringify`/`JSON.parse` of this flat record of a
boolean and a finite number is lossless, so saving is modelled as handing
the record itself to storage. -/
def saveBeepSettings (b : BeepSettings) : BeepSettings := b

/-- script.js:2407-2413, `saveAudioSpeedSettings()` (lossless JSON write,
as for `saveBeepSettings`). -/
def saveAudioSpeedSettings (a : AudioSpeedSettings) : AudioSpeedSettings := a

/-- script.js:1116-1122, `saveNbackSettings()` (lossless JSON write). -/
def saveNbackSettings (n : NbackSettings) : NbackSettings := n

/-- script.js:1125-1131, `saveCustomModeSettings()` (lossless JSON write). -/
def saveCustomModeSettings (m : ModeSettings) : ModeSettings := m

/-- script.js:1094-1113, `loadBeepSettings()` applied to a stored record:
`enabled = settings.enabled || false` and
`volume = Math.max(0, Math.min(1, settings.volume || 0.5))`. -/
def loadBeepSettings (stored : BeepSettings) : BeepSettings :=
  { enabled := stored.enabled || false,
    volume := max 0 (min 1 (jsOrRat stored.volume (1 / 2))) }

/-- script.js:2391-2404, `loadAudioSpeedSettings()`:
`rate = Math.max(1.0, Math.min(1.5, settings.rate || 1.0))`. -/
def loadAudioSpeedSettings (stored : AudioSpeedSettings) : AudioSpeedSettings :=
  { rate := max 1 (min (3 / 2) (jsOrRat stored.rate 1)) }

/-- script.js:1081-1091, `loadNbackSettings()`:
`value = Math.max(1, Math.min(10, settings.value || 1))`. -/
def loadNbackSettings (stored : NbackSettings) : NbackSettings :=
  { value := max 1 (min 10 (jsOrNat stored.value 1)) }

/-- script.js:1050-1064, `loadCustomModeSettings()`:
`selectedISI = settings.selectedISI || 3000` and
`sessionDuration = settings.sessionDuration || 20` — no clamping.
(`loadManualModeSettings`, script.js:1067-1078, is textually identical.) -/
def loadCustomModeSettings (stored : ModeSettings) : ModeSettings :=
  { selectedISI := jsOrNat stored.selectedISI 3000,
    sessionDuration := jsOrNat stored.sessionDuration 20 }

/-- One persisted Session Summary (script.js:1366-1384). -/
structure SessionSummary where
  date : Int
  totalCorrect : Nat
  totalAttempts : Nat
  accuracy : Nat
  sessionDuration : Nat
  lowestISI : Nat
  mode : String
  nbackValue : Nat
  trials : Nat
  averageResponseTime : Int
  consecutiveCorrectMax : Nat
deriving DecidableEq, Repr

/-- Math.round(100 * c / a) for naturals with a > 0:
floor(100c/a + 1/2) = (200c + a) / (2a) in integer division. -/
def jsRoundPercent (c a : Nat) : Nat := (200 * c + a) / (2 * a)

/-- Math.round(sum / n) for a nonnegative sum, as used by
`calculateAverageResponseTime` (script.js:1391-1398). -/
def jsRoundDiv (sum : Int) (n : Nat) : Int := (2 * sum + n) / (2 * n)

/-- script.js:1391-1398, `calculateAverageResponseTime()`: the mean of the
`responseTime` fields present in the session history, rounded; `0` when no
trial carries a response time. -/
def calculateAverageResponseTime (hist : List TrialRec) : Int :=
  let responseTimes := hist.filterMap (fun t => t.responseTime)
  if responseTimes.length = 0 then 0
  else jsRoundDiv (responseTimes.foldl (fun acc t => acc + t) 0) responseTimes.length

/-- The inner loop of the `consecutiveCorrectMax` computation
(script.js:1377-1383): the length of the run of truthy `correct` flags
starting at the head (`true` is the only truthy value of the
`true`/`false`/`null` field). -/
def runLengthFrom : List TrialRec → Nat
  | [] => 0
  | t :: rest => if t.correct = some true then runLengthFrom rest + 1 else 0

/-- script.js:1377-1383: `Math.max` of the forward run length from every
start index of the session history (the history is non-empty whenever this
is evaluated, so the `0` base of the fold agrees with `Math.max`). -/
def consecutiveCorrectMaxOf (hist : List TrialRec) : Nat :=
  ((List.range hist.length).map (fun i => runLengthFrom (hist.drop i))).foldl max 0

/-- script.js:1366-1384, the `sessionData` record built at session end from
the live state (`isStandardMode` and `sessionDuration` are globals outside
`SessionState`, passed explicitly). -/
def mkSessionSummary (date : Int) (isStandardMode : Bool) (sessionDuration : Nat)
    (s : SessionState) : SessionSummary :=
  { date := date,
    totalCorrect := s.score.totalCorrect,
    totalAttempts := s.score.totalAttempts,
    accuracy := if 0 < s.score.totalAttempts then
        jsRoundPercent s.score.totalCorrect s.score.totalAttempts
      else 0,
    sessionDuration := sessionDuration,
    lowestISI := s.score.lowestISI,
    mode := if isStandardMode then "Standard"
      else if s.isManualMode then "Manual" else "Custom",
    nbackValue := s.nbackValue,
    trials := s.sessionHistory.length,
    averageResponseTime := calculateAverageResponseTime s.sessionHistory,
    consecutiveCorrectMax := consecutiveCorrectMaxOf s.sessionHistory }

/-- script.js:1360-1388, `addSessionToHistory()`: append the Session
Summary to the persisted collection `allSessions`, but only when the
session history is non-empty and at least 50 questions were answered. -/
def addSessionToHistory (allSessions : List SessionSummary) (date : Int)
    (isStandardMode : Bool) (sessionDuration : Nat) (s : SessionState) :
    List SessionSummary :=
  if s.sessionHistory.length = 0 then allSessions
  else if s.score.totalAttempts < 50 then allSessions
  else allSessions ++ [mkSessionSummary date isStandardMode sessionDuration s]

/-! Helper lemmas shared by the claim theorems. -/

theorem jsOrNat_of_pos {v : Nat} (d : Nat) (h : 0 < v) : jsOrNat v d = v := by
  simp [jsOrNat, Nat.pos_iff_ne_zero.mp h]

theorem jsOrRat_of_ne {v : ℚ} (d : ℚ) (h : v ≠ 0) : jsOrRat v d = v := by
  simp [jsOrRat, h]

/-- In the region the caller of `calculateNbackAnswer` guards for
(`numberSequence.length >= nbackValue + 1`, script.js:526), the oracle
returns the numeric sum of the current digit and the digit `nback`
positions back. -/
theorem calculateNbackAnswer_guarded (cur : Int) (seq : List Int) (nb : Nat)
    (h : nb + 1 ≤ seq.length) :
    calculateNbackAnswer cur seq nb =
      JSResult.jnum (cur + seq.getD (seq.length - nb - 1) 0) := by
  unfold calculateNbackAnswer
  rw [if_neg (by omega), if_pos (by constructor <;> omega)]
  have ht : ((seq.length : Int) - nb - 1).toNat = seq.length - nb - 1 := by omega
  rw [ht]

theorem scoreResolution_totalAttempts (m : Bool) (sel : Nat) (c : Bool) (b : Scoreboard) :
    (scoreResolution m sel c b).totalAttempts = b.totalAttempts + 1 := by
  cases c <;> cases m <;> simp only [scoreResolution] <;> split_ifs <;> rfl

theorem scoreNoAnswerLate_counters (m : Bool) (b : Scoreboard) :
    (scoreNoAnswerLate m b).totalAttempts = b.totalAttempts + 1 ∧
    (scoreNoAnswerLate m b).consecutiveCorrect = 0 ∧
    (scoreNoAnswerLate m b).totalCorrect = b.totalCorrect := by
  cases m <;> simp only [scoreNoAnswerLate] <;> split_ifs <;> exact ⟨rfl, rfl, rfl⟩

/-- A concrete scoreboard at session start with the standard 3000 ms ISI. -/
def exScore : Scoreboard :=
  { totalCorrect := 0, totalAttempts := 0, consecutiveCorrect := 0,
    consecutiveIncorrect := 0, currentISIValue := 3000, lowestISI := 3000 }

/-- A concrete open trial: 1-back, sequence `[4, 7]`, expecting `11`. -/
def exTrial1 : TrialRec :=
  { nbackValue := 1, currentNumber := 7, previousNumber := 4, correctAnswer := 11,
    userAnswer := none, correct := none, isi := 3000, trialId := 1,
    responseTime := none }

/-- A concrete mid-session state: standard mode, the single open trial
`exTrial1` awaiting the answer 11, no resolution in flight. -/
def exState : SessionState :=
  { sessionActive := true, correctAnswer := some 11, processingAnswer := false,
    answerProcessed := false, audioPlayInProgress := false,
    forcePresentNextNumber := false, nextNumberScheduled := false,
    currentIntervalId := true, nbackValue := 1, numberSequence := [4, 7],
    sessionHistory := [exTrial1], currentTrialId := 1, score := exScore,
    selectedISI := 3000, isManualMode := false, inputSurface := none,
    nextPresentationTime := 3000 }

/-- C10: a Session Summary is appended to the persisted collection only
when the ended session's `totalAttempts` reaches 50; any session ending
below that (for example with 30 attempts) leaves the persisted collection
unchanged. -/
theorem addSessionToHistory_requires_fifty (allSessions : List SessionSummary)
    (date : Int) (isStandardMode : Bool) (sessionDuration : Nat) (s : SessionState)
    (h : s.score.totalAttempts < 50) :
    addSessionToHistory allSessions date isStandardMode sessionDuration s = allSessions := by
  unfold addSessionToHistory
  split
  · rfl
  · simp [h]

/-- Witness for C10 at the spec's scenario: a session ending with 30 total
attempts persists no Session Summary. -/
theorem addSessionToHistory_requires_fifty_witness :
    addSessionToHistory [] 0 true 20
      { exState with score := { exScore with totalAttempts := 30 } } = [] :=
  addSessionToHistory_requires_fifty [] 0 true 20 _ (by decide)

/-- C9 counterexample: the beep volume 0 lies inside the documented valid
range [0, 1], yet saving it and reloading yields 0.5 (the load's
`settings.volume || 0.5` treats the stored 0 as absent), so the round trip
is not the identity on every clamped record. -/
theorem beep_volume_zero_roundtrip_fails :
    loadBeepSettings (saveBeepSettings { enabled := true, volume := 0 }) ≠
      ({ enabled := true, volume := 0 } : BeepSettings) ∧
    loadBeepSettings (saveBeepSettings { enabled := true, volume := 0 }) =
      ({ enabled := true, volume := 1 / 2 } : BeepSettings) := by
  have hload : loadBeepSettings (saveBeepSettings { enabled := true, volume := 0 }) =
      ({ enabled := true, volume := 1 / 2 } : BeepSettings) := by
    simp [loadBeepSettings, saveBeepSettings, jsOrRat]
    norm_num
  refine ⟨?_, hload⟩
  rw [hload]
  intro hEq
  have hv := congrArg BeepSettings.volume hEq
  norm_num at hv

/-- C9 (amended): saving and reloading the settings records is the
identity on values in their documented ranges, except that a beep volume
of exactly 0 is replaced by the default 0.5; so the round trip is exact
for beep volumes in (0, 1], playback rates in [1, 1.5], N-back depths in
[1, 10] and non-zero mode ISI/duration values. -/
theorem settings_roundtrip_clamped (b : BeepSettings) (a : AudioSpeedSettings)
    (n : NbackSettings) (m : ModeSettings)
    (hb0 : 0 < b.volume) (hb1 : b.volume ≤ 1)
    (ha0 : 1 ≤ a.rate) (ha1 : a.rate ≤ 3 / 2)
    (hn0 : 1 ≤ n.value) (hn1 : n.value ≤ 10)
    (hm0 : 500 ≤ m.selectedISI) (hm1 : 0 < m.sessionDuration) :
    loadBeepSettings (saveBeepSettings b) = b ∧
    loadAudioSpeedSettings (saveAudioSpeedSettings a) = a ∧
    loadNbackSettings (saveNbackSettings n) = n ∧
    loadCustomModeSettings (saveCustomModeSettings m) = m := by
  obtain ⟨e, v⟩ := b
  obtain ⟨r⟩ := a
  obtain ⟨nv⟩ := n
  obtain ⟨mi, md⟩ := m
  simp only at hb0 hb1 ha0 ha1 hn0 hn1 hm0 hm1
  have hr0 : r ≠ 0 := by
    intro hr; rw [hr] at ha0; norm_num at ha0
  refine ⟨?_, ?_, ?_, ?_⟩
  · simp [loadBeepSettings, saveBeepSettings, jsOrRat_of_ne _ hb0.ne',
      min_eq_right hb1, max_eq_right hb0.le]
  · simp [loadAudioSpeedSettings, saveAudioSpeedSettings, jsOrRat_of_ne _ hr0,
      min_eq_right ha1, max_eq_right ha0]
  · simp [loadNbackSettings, saveNbackSettings, @jsOrNat_of_pos nv 1 (by omega)]
    omega
  · simp [loadCustomModeSettings, saveCustomModeSettings,
      @jsOrNat_of_pos mi 3000 (by omega), @jsOrNat_of_pos md 20 hm1]

/-- Witness for C9: a concrete in-range settings tuple round-trips
unchanged. -/
theorem settings_roundtrip_clamped_witness :
    loadBeepSettings (saveBeepSettings { enabled := false, volume := 1 / 2 }) =
      ({ enabled := false, volume := 1 / 2 } : BeepSettings) ∧
    loadAudioSpeedSettings (saveAudioSpeedSettings { rate := 5 / 4 }) =
      ({ rate := 5 / 4 } : AudioSpeedSettings) ∧
    loadNbackSettings (saveNbackSettings { value := 2 }) =
      ({ value := 2 } : NbackSettings) ∧
    loadCustomModeSettings (saveCustomModeSettings { selectedISI := 2600, sessionDuration := 20 }) =
      ({ selectedISI := 2600, sessionDuration := 20 } : ModeSettings) :=
  settings_roundtrip_clamped _ _ _ _ (by norm_num) (by norm_num) (by norm_num)
    (by norm_num) (by decide) (by decide) (by decide) (by decide)

/-- C4 counterexample: in standard mode at ISI 3000 with a fresh streak,
four consecutive correct resolutions leave the ISI at 2900, not 2600 (one
100 ms step fires when the streak reaches 4). -/
theorem four_correct_at_3000_not_2600 :
    (scoreResolution false 3000 true (scoreResolution false 3000 true
      (scoreResolution false 3000 true (scoreResolution false 3000 true
        exScore)))).currentISIValue = 2900 ∧
    ¬ (scoreResolution false 3000 true (scoreResolution false 3000 true
      (scoreResolution false 3000 true (scoreResolution false 3000 true
        exScore)))).currentISIValue = 2600 := by
  constructor <;> decide

/-- C4 (amended): in standard (non-manual) mode with the current ISI at
3000 ms, a run of exactly 4 consecutive correct resolutions brings the ISI
to 2900 ms — a single 100 ms decrease when the streak reaches 4 —
whatever the streak value (necessarily below 4) at the start of the run. -/
theorem four_correct_at_3000_gives_2900 (b : Scoreboard) (selectedISI : Nat)
    (hisi : b.currentISIValue = 3000) (hcc : b.consecutiveCorrect ≤ 3) :
    (scoreResolution false selectedISI true (scoreResolution false selectedISI true
      (scoreResolution false selectedISI true (scoreResolution false selectedISI true
        b)))).currentISIValue = 2900 := by
  obtain ⟨tc, ta, cc, ci, isi, low⟩ := b
  simp only at hisi hcc
  subst hisi
  interval_cases cc <;> simp [scoreResolution]

/-- A concrete scoreboard two trials into a correct streak. -/
def exScoreMid : Scoreboard :=
  { exScore with consecutiveCorrect := 2, totalCorrect := 2, totalAttempts := 2 }

/-- Witness for C4 (amended) at a mid-streak scoreboard. -/
theorem four_correct_at_3000_gives_2900_witness :
    (scoreResolution false 3000 true (scoreResolution false 3000 true
      (scoreResolution false 3000 true (scoreResolution false 3000 true
        exScoreMid)))).currentISIValue = 2900 :=
  four_correct_at_3000_gives_2900 _ 3000 (by decide) (by decide)

/-- C5 counterexample: the stored custom/manual mode ISI is loaded without
an upper clamp and `startSession` clamps only from below, so a stored
selected ISI of 6000 starts the session at ISI 6000, outside [500, 5000]. -/
theorem isi_upper_bound_violated_at_start :
    loadCustomModeSelectedISI 6000 = 6000 ∧
    startSessionISI 6000 = 6000 ∧
    ¬ startSessionISI 6000 ≤ 5000 := by
  refine ⟨by decide, by decide, by decide⟩

/-- C5 (amended): session start enforces only the 500 ms lower ISI bound,
so the ISI starts within [500, 5000] exactly when the selected ISI is at
most 5000; within that range both resolution paths keep the ISI inside
[500, 5000] in automatic modes; and in manual mode `processAnswer`
re-pins the ISI to the session's selected ISI on every resolution while
the late no-answer path leaves it unchanged. -/
theorem isi_bounds_and_manual_pinning (selectedISI : Nat) (b : Scoreboard)
    (isCorrect : Bool) (hsel : selectedISI ≤ 5000)
    (h1 : 500 ≤ b.currentISIValue) (h2 : b.currentISIValue ≤ 5000) :
    500 ≤ startSessionISI selectedISI ∧
    startSessionISI selectedISI ≤ 5000 ∧
    500 ≤ (scoreResolution false selectedISI isCorrect b).currentISIValue ∧
    (scoreResolution false selectedISI isCorrect b).currentISIValue ≤ 5000 ∧
    500 ≤ (scoreNoAnswerLate false b).currentISIValue ∧
    (scoreNoAnswerLate false b).currentISIValue ≤ 5000 ∧
    (scoreResolution true selectedISI isCorrect b).currentISIValue = selectedISI ∧
    (scoreNoAnswerLate true b).currentISIValue = b.currentISIValue := by
  obtain ⟨tc, ta, cc, ci, isi, low⟩ := b
  simp only at h1 h2
  refine ⟨?_, ?_, ?_, ?_, ?_, ?_, ?_, ?_⟩
  · unfold startSessionISI; omega
  · unfold startSessionISI; omega
  · cases isCorrect <;> simp [scoreResolution] <;> split_ifs <;> dsimp only <;> omega
  · cases isCorrect <;> simp [scoreResolution] <;> split_ifs <;> dsimp only <;> omega
  · simp only [scoreNoAnswerLate]
    split_ifs <;> dsimp only <;> omega
  · simp only [scoreNoAnswerLate]
    split_ifs <;> dsimp only <;> omega
  · cases isCorrect <;> simp [scoreResolution]
  · simp [scoreNoAnswerLate]

/-- Witness for C5 (amended) at the standard-mode defaults. -/
theorem isi_bounds_and_manual_pinning_witness :
    500 ≤ startSessionISI 3000 ∧
    startSessionISI 3000 ≤ 5000 ∧
    500 ≤ (scoreResolution false 3000 true exScore).currentISIValue ∧
    (scoreResolution false 3000 true exScore).currentISIValue ≤ 5000 ∧
    500 ≤ (scoreNoAnswerLate false exScore).currentISIValue ∧
    (scoreNoAnswerLate false exScore).currentISIValue ≤ 5000 ∧
    (scoreResolution true 3000 true exScore).currentISIValue = 3000 ∧
    (scoreNoAnswerLate true exScore).currentISIValue = exScore.currentISIValue :=
  isi_bounds_and_manual_pinning 3000 exScore true (by decide) (by decide) (by decide)

/-- C8: in automatic (non-manual) modes, when the consecutive-correct
streak reaches 4 the ISI drops by 100 ms floored at 500, the correct
streak resets and `lowestISI` tracks the running minimum; when the
consecutive-incorrect streak reaches 4 — also via the no-response late
path — the ISI rises by 100 ms capped at 5000 and the incorrect streak
resets. -/
theorem streaks_of_four_adjust_isi (b : Scoreboard) (selectedISI : Nat)
    (hcc : b.consecutiveCorrect = 3) (hci : b.consecutiveIncorrect = 3) :
    (scoreResolution false selectedISI true b).currentISIValue =
      max 500 (b.currentISIValue - 100) ∧
    (scoreResolution false selectedISI true b).consecutiveCorrect = 0 ∧
    (scoreResolution false selectedISI true b).lowestISI =
      min b.lowestISI (max 500 (b.currentISIValue - 100)) ∧
    (scoreResolution false selectedISI false b).currentISIValue =
      min 5000 (b.currentISIValue + 100) ∧
    (scoreResolution false selectedISI false b).consecutiveIncorrect = 0 ∧
    (scoreNoAnswerLate false b).currentISIValue =
      min 5000 (b.currentISIValue + 100) ∧
    (scoreNoAnswerLate false b).consecutiveIncorrect = 0 := by
  obtain ⟨tc, ta, cc, ci, isi, low⟩ := b
  simp only at hcc hci
  subst hcc; subst hci
  refine ⟨?_, ?_, ?_, ?_, ?_, ?_, ?_⟩ <;> simp [scoreResolution, scoreNoAnswerLate]

theorem isCorrectOf_self (c : Int) : isCorrectOf (some c) c = true := by
  simp [isCorrectOf]

/-- `processAnswer` on an unresolved current trial whose recorded correct
answer matches the global `correctAnswer` succeeds and performs exactly
the source's updates (script.js:746-825). -/
theorem processAnswer_resolves (s : SessionState) (now : Int) (ua : Option Int)
    (T : TrialRec) (hpa : s.processingAnswer = false)
    (hlast : s.sessionHistory.getLast? = some T)
    (hca : s.correctAnswer = some T.correctAnswer)
    (hun : T.userAnswer = none) :
    processAnswer s now ua =
      (true, { s with
        sessionHistory := s.sessionHistory.dropLast ++
          [{ T with
              responseTime :=
                some (now - (s.nextPresentationTime - (s.score.currentISIValue : Int))),
              userAnswer := ua,
              correct := some (isCorrectOf ua T.correctAnswer) }],
        score := scoreResolution s.isManualMode s.selectedISI
          (isCorrectOf ua T.correctAnswer) s.score,
        inputSurface := if isCorrectOf ua T.correctAnswer then none
          else s.inputSurface }) := by
  unfold processAnswer
  rw [if_neg (by simp [hpa, hca]), hlast]
  simp [hun, hca]

/-- `processAnswer` against a current trial that already carries an actual
answer is rejected by the guard of script.js:733 and leaves the state
untouched. -/
theorem processAnswer_rejects_resolved (s : SessionState) (now : Int) (ua : Option Int)
    (T : TrialRec) (a : Int)
    (hlast : s.sessionHistory.getLast? = some T)
    (hres : T.userAnswer = some a) :
    processAnswer s now ua = (false, s) := by
  unfold processAnswer
  by_cases h : (s.processingAnswer : Prop) ∨ s.correctAnswer = none
  · rw [if_pos h]
  · rw [if_neg h, hlast]
    simp [hres]

/-- The deadline callback whose looked-up trial already carries an actual
answer returns via the guard of script.js:587 with the state untouched. -/
theorem deadlineFire_noop_on_resolved (s : SessionState) (now : Int) (tid : Nat)
    (tpt : Int) (T : TrialRec) (a : Int)
    (hfind : s.sessionHistory.find? (fun t => t.trialId == tid) = some T)
    (hres : T.userAnswer = some a) :
    deadlineFire s now tid tpt = s := by
  unfold deadlineFire
  by_cases h : (s.answerProcessed : Prop) ∨ (s.processingAnswer : Prop)
  · rw [if_pos h]
  · rw [if_neg h, hfind]
    simp [hres]

/-- The deadline callback is a complete no-op once `answerProcessed` has
been claimed (guard of script.js:584). -/
theorem deadlineFire_noop_of_answerProcessed (s : SessionState) (now : Int)
    (tid : Nat) (tpt : Int) (h : s.answerProcessed = true) :
    deadlineFire s now tid tpt = s := by
  unfold deadlineFire
  rw [if_pos (Or.inl (by simp [h]))]

/-- A number-pad submission while `answerProcessed` is claimed only clears
the (already clear) selection (script.js:2214-2217). -/
theorem submitCandidate_noop_of_answerProcessed (s : SessionState) (now : Int)
    (v : Int) (h : s.answerProcessed = true) (hin : s.inputSurface = none) :
    submitCandidate s now v = s := by
  unfold submitCandidate
  rw [if_pos (fun hc => hc.2.2.2 h)]
  conv_lhs => rw [← hin]

/-- The stale-trial branch of the deadline callback (script.js:595-637)
resolves the looked-up trial in place and applies the late scoring. -/
theorem deadlineFire_stale_eq (s : SessionState) (now tpt : Int) (tid : Nat)
    (T : TrialRec)
    (hap : s.answerProcessed = false) (hpa : s.processingAnswer = false)
    (hfind : s.sessionHistory.find? (fun t => t.trialId == tid) = some T)
    (hun : T.userAnswer = none)
    (hstale : s.sessionHistory.findIdx (fun t => t.trialId == tid) ≠
      s.sessionHistory.length - 1) :
    deadlineFire s now tid tpt = { s with
      sessionHistory := s.sessionHistory.set
        (s.sessionHistory.findIdx (fun t => t.trialId == tid))
        { T with
            responseTime := some (now - tpt),
            userAnswer := none,
            correct := some false },
      score := scoreNoAnswerLate s.isManualMode s.score } := by
  unfold deadlineFire
  rw [if_neg (by simp [hap, hpa]), hfind]
  simp [hun, hstale]

/-- A second concrete open trial (id 2) following `exTrial1`. -/
def exTrial2 : TrialRec :=
  { nbackValue := 1, currentNumber := 5, previousNumber := 7, correctAnswer := 12,
    userAnswer := none, correct := none, isi := 3000, trialId := 2,
    responseTime := none }

/-- A concrete state in which trial 2 has already opened while trial 1 is
still unresolved — the situation of a stale deadline. -/
def exStateStale : SessionState :=
  { exState with
      numberSequence := [4, 7, 5],
      sessionHistory := [exTrial1, exTrial2],
      correctAnswer := some 12,
      currentTrialId := 2 }

/-- Trial 1 after a correct immediate resolution. -/
def exTrial1Resolved : TrialRec :=
  { exTrial1 with
      userAnswer := some 11,
      correct := some true,
      responseTime := some 800 }

/-- A concrete state whose current trial is already resolved. -/
def exStateResolved : SessionState :=
  { exState with sessionHistory := [exTrial1Resolved], answerProcessed := true }

/-- C2: when the deadline fires for a trial that is no longer the last
history entry (with no resolution claimed or in flight and the trial still
unanswered), that trial alone is resolved as incorrect with no answer and
a response time, the shared counters and difficulty are updated by the
late scoring rule, and everything owned by the newer current trial — its
history record, the `answerProcessed` and `processingAnswer` flags, the
global `correctAnswer` and the input surface — is left untouched. -/
theorem stale_deadline_is_framed (s : SessionState) (now tpt : Int) (tid : Nat)
    (T : TrialRec)
    (hap : s.answerProcessed = false) (hpa : s.processingAnswer = false)
    (hfind : s.sessionHistory.find? (fun t => t.trialId == tid) = some T)
    (hun : T.userAnswer = none)
    (hstale : s.sessionHistory.findIdx (fun t => t.trialId == tid) ≠
      s.sessionHistory.length - 1) :
    (deadlineFire s now tid tpt).sessionHistory.length = s.sessionHistory.length ∧
    (deadlineFire s now tid tpt).sessionHistory[s.sessionHistory.findIdx
        (fun t => t.trialId == tid)]? =
      some { T with
        responseTime := some (now - tpt),
        userAnswer := none,
        correct := some false } ∧
    (deadlineFire s now tid tpt).sessionHistory[s.sessionHistory.length - 1]? =
      s.sessionHistory[s.sessionHistory.length - 1]? ∧
    (deadlineFire s now tid tpt).score = scoreNoAnswerLate s.isManualMode s.score ∧
    (deadlineFire s now tid tpt).score.totalAttempts = s.score.totalAttempts + 1 ∧
    (deadlineFire s now tid tpt).score.consecutiveCorrect = 0 ∧
    (deadlineFire s now tid tpt).answerProcessed = s.answerProcessed ∧
    (deadlineFire s now tid tpt).processingAnswer = s.processingAnswer ∧
    (deadlineFire s now tid tpt).correctAnswer = s.correctAnswer ∧
    (deadlineFire s now tid tpt).inputSurface = s.inputSurface := by
  have hmem : T ∈ s.sessionHistory := List.mem_of_find?_eq_some hfind
  have hp := List.find?_some hfind
  have hlt : s.sessionHistory.findIdx (fun t => t.trialId == tid) <
      s.sessionHistory.length :=
    List.findIdx_lt_length_of_exists ⟨T, hmem, hp⟩
  rw [deadlineFire_stale_eq s now tpt tid T hap hpa hfind hun hstale]
  refine ⟨by simp, ?_, ?_, rfl, ?_, ?_, rfl, rfl, rfl, rfl⟩
  · exact List.getElem?_set_self hlt
  · exact List.getElem?_set_ne hstale
  · exact (scoreNoAnswerLate_counters s.isManualMode s.score).1
  · exact (scoreNoAnswerLate_counters s.isManualMode s.score).2.1

/-- Witness for C2: the deadline for trial 1 fires after trial 2 has
opened; trial 1 is resolved as no-answer incorrect and trial 2 and the
shared flags are untouched. -/
theorem stale_deadline_is_framed_witness :
    (deadlineFire exStateStale 6000 1 3000).sessionHistory.length =
      exStateStale.sessionHistory.length ∧
    (deadlineFire exStateStale 6000 1 3000).sessionHistory[exStateStale.sessionHistory.findIdx
        (fun t => t.trialId == 1)]? =
      some { exTrial1 with
        responseTime := some (6000 - 3000),
        userAnswer := none,
        correct := some false } ∧
    (deadlineFire exStateStale 6000 1 3000).sessionHistory[exStateStale.sessionHistory.length - 1]? =
      exStateStale.sessionHistory[exStateStale.sessionHistory.length - 1]? ∧
    (deadlineFire exStateStale 6000 1 3000).score =
      scoreNoAnswerLate exStateStale.isManualMode exStateStale.score ∧
    (deadlineFire exStateStale 6000 1 3000).score.totalAttempts =
      exStateStale.score.totalAttempts + 1 ∧
    (deadlineFire exStateStale 6000 1 3000).score.consecutiveCorrect = 0 ∧
    (deadlineFire exStateStale 6000 1 3000).answerProcessed = exStateStale.answerProcessed ∧
    (deadlineFire exStateStale 6000 1 3000).processingAnswer = exStateStale.processingAnswer ∧
    (deadlineFire exStateStale 6000 1 3000).correctAnswer = exStateStale.correctAnswer ∧
    (deadlineFire exStateStale 6000 1 3000).inputSurface = exStateStale.inputSurface :=
  stale_deadline_is_framed exStateStale 6000 3000 1 exTrial1
    rfl rfl (by decide) rfl (by decide)

/-- C7: once a trial's `userAnswer` has been set by a resolution, it is
never overwritten: a later `processAnswer` attempt while it is the current
trial returns the failure signal with the whole state unchanged, and a
later deadline callback that locates a resolved trial by id likewise
changes nothing — no counters and no trial fields move. -/
theorem resolved_trials_are_immutable (s : SessionState) (now n2 : Int)
    (ua : Option Int) (tid : Nat) (tpt : Int) (T T2 : TrialRec) (a a2 : Int)
    (hlast : s.sessionHistory.getLast? = some T) (hres : T.userAnswer = some a)
    (hfind : s.sessionHistory.find? (fun t => t.trialId == tid) = some T2)
    (hres2 : T2.userAnswer = some a2) :
    processAnswer s now ua = (false, s) ∧
    deadlineFire s n2 tid tpt = s :=
  ⟨processAnswer_rejects_resolved s now ua T a hlast hres,
    deadlineFire_noop_on_resolved s n2 tid tpt T2 a2 hfind hres2⟩

/-- Witness for C7 at a concrete resolved trial: both late attempts are
rejected without any state change. -/
theorem resolved_trials_are_immutable_witness :
    processAnswer exStateResolved 5000 (some 11) = (false, exStateResolved) ∧
    deadlineFire exStateResolved 5000 1 0 = exStateResolved :=
  resolved_trials_are_immutable exStateResolved 5000 5000 (some 11) 1 0
    exTrial1Resolved exTrial1Resolved 11 11 (by decide) (by decide)
    (by decide) (by decide)

/-- C6 (code bug): `endSession` clears the presentation timer and resets
the in-flight flags, but the per-trial deadline `setTimeout` of
script.js:582 has no stored handle and its callback never checks
`sessionActive`, so a deadline pending at session end still resolves its
trial afterwards and increments `totalAttempts` — the session counters
are mutated after session end. -/
theorem deadline_survives_endSession :
    (endSession exState).sessionActive = false ∧
    (deadlineFire (endSession exState) 9000 1 3000).score.totalAttempts =
      exState.score.totalAttempts + 1 ∧
    ((deadlineFire (endSession exState) 9000 1 3000).sessionHistory.getLast?.map
      TrialRec.correct) = some (some false) := by
  refine ⟨rfl, by decide, by decide⟩

/-- C1: for a current open trial with its two resolution paths firing
back-to-back in either order — a submitted candidate equal to the trial's
correct answer, and the deadline timeout for that same trial — exactly
one attempt resolves the trial and `totalAttempts` is incremented exactly
once: the loser is a complete no-op on the trial and the counters, and in
neither order is the trial left unresolved. -/
theorem exactly_once_resolution (s : SessionState) (T : TrialRec) (tid : Nat)
    (n1 n2 tpt : Int)
    (hlast : s.sessionHistory.getLast? = some T)
    (hun : T.userAnswer = none)
    (hca : s.correctAnswer = some T.correctAnswer)
    (hap : s.answerProcessed = false) (hpa : s.processingAnswer = false)
    (haud : s.audioPlayInProgress = false)
    (hfind : s.sessionHistory.find? (fun t => t.trialId == tid) = some T)
    (hidx : s.sessionHistory.findIdx (fun t => t.trialId == tid) =
      s.sessionHistory.length - 1) :
    (deadlineFire (submitCandidate s n1 T.correctAnswer) n2 tid tpt =
        submitCandidate s n1 T.correctAnswer ∧
      (submitCandidate s n1 T.correctAnswer).score.totalAttempts =
        s.score.totalAttempts + 1 ∧
      (submitCandidate s n1 T.correctAnswer).sessionHistory.getLast?.map
        TrialRec.userAnswer = some (some T.correctAnswer) ∧
      (submitCandidate s n1 T.correctAnswer).sessionHistory.getLast?.map
        TrialRec.correct = some (some true)) ∧
    (submitCandidate (deadlineFire s n1 tid tpt) n2 T.correctAnswer =
        deadlineFire s n1 tid tpt ∧
      (deadlineFire s n1 tid tpt).score.totalAttempts =
        s.score.totalAttempts + 1 ∧
      (deadlineFire s n1 tid tpt).sessionHistory.getLast?.map TrialRec.correct =
        some (some (isCorrectOf s.inputSurface T.correctAnswer))) := by
  have hcan : canProcessButtonClick s :=
    ⟨by simp [hpa], by simp [hca], by simp [haud], by simp [hap]⟩
  have hA : submitCandidate s n1 T.correctAnswer =
      { s with
        answerProcessed := true,
        sessionHistory := s.sessionHistory.dropLast ++
          [{ T with
              responseTime :=
                some (n1 - (s.nextPresentationTime - (s.score.currentISIValue : Int))),
              userAnswer := some T.correctAnswer,
              correct := some true }],
        score := scoreResolution s.isManualMode s.selectedISI true s.score,
        inputSurface := none } := by
    have h2 := processAnswer_resolves
      { s with inputSurface := some T.correctAnswer, answerProcessed := true }
      n1 (some T.correctAnswer) T hpa hlast hca hun
    unfold submitCandidate
    rw [if_neg (not_not_intro hcan), if_pos hca]
    dsimp only
    rw [h2]
    simp [isCorrectOf_self]
  have hB : deadlineFire s n1 tid tpt =
      { s with
        answerProcessed := true,
        sessionHistory := s.sessionHistory.dropLast ++
          [{ T with
              responseTime :=
                some (n1 - (s.nextPresentationTime - (s.score.currentISIValue : Int))),
              userAnswer := s.inputSurface,
              correct := some (isCorrectOf s.inputSurface T.correctAnswer) }],
        score := scoreResolution s.isManualMode s.selectedISI
          (isCorrectOf s.inputSurface T.correctAnswer) s.score,
        inputSurface := none } := by
    have h2 := processAnswer_resolves
      { s with answerProcessed := true }
      n1 s.inputSurface T hpa hlast hca hun
    have hc1 : ¬ (T.userAnswer ≠ none) := by simp [hun]
    have hc2 : ¬ (s.sessionHistory.findIdx (fun t => t.trialId == tid) ≠
        s.sessionHistory.length - 1) := by simp [hidx]
    unfold deadlineFire
    rw [if_neg (by simp [hap, hpa]), hfind]
    try dsimp only
    rw [if_neg hc1, if_neg hc2]
    try dsimp only
    rw [h2]
    simp
  constructor
  · refine ⟨?_, ?_, ?_, ?_⟩
    · exact deadlineFire_noop_of_answerProcessed _ n2 tid tpt (by rw [hA])
    · rw [hA]
      exact scoreResolution_totalAttempts _ _ _ _
    · rw [hA]
      simp [List.getLast?_concat]
    · rw [hA]
      simp [List.getLast?_concat]
  · refine ⟨?_, ?_, ?_⟩
    · exact submitCandidate_noop_of_answerProcessed _ n2 _ (by rw [hB]) (by rw [hB])
    · rw [hB]
      exact scoreResolution_totalAttempts _ _ _ _
    · rw [hB]
      simp [List.getLast?_concat]

/-- Witness for C1 at the concrete open trial of `exState` (correct answer
11, trial id 1), for both firing orders. -/
theorem exactly_once_resolution_witness :
    (deadlineFire (submitCandidate exState 3500 11) 3600 1 3000 =
        submitCandidate exState 3500 11 ∧
      (submitCandidate exState 3500 11).score.totalAttempts =
        exState.score.totalAttempts + 1 ∧
      (submitCandidate exState 3500 11).sessionHistory.getLast?.map
        TrialRec.userAnswer = some (some 11) ∧
      (submitCandidate exState 3500 11).sessionHistory.getLast?.map
        TrialRec.correct = some (some true)) ∧
    (submitCandidate (deadlineFire exState 3500 1 3000) 3600 11 =
        deadlineFire exState 3500 1 3000 ∧
      (deadlineFire exState 3500 1 3000).score.totalAttempts =
        exState.score.totalAttempts + 1 ∧
      (deadlineFire exState 3500 1 3000).sessionHistory.getLast?.map
        TrialRec.correct =
        some (some (isCorrectOf exState.inputSurface 11))) :=
  exactly_once_resolution exState exTrial1 1 3500 3600 3000
    rfl rfl rfl rfl rfl rfl (by decide) (by decide)

/-- C3 counterexample: for `nback = 1` and the one-digit sequence `[4]` —
shorter than `nback + 1` — the oracle does not report "not yet
available": the guard `sequence.length < nback` lets the call through and
the out-of-range read `sequence[-1]` makes the result `NaN`, not `null`. -/
theorem oracle_not_null_at_length_eq_nback :
    ¬ calculateNbackAnswer 4 [4] 1 = JSResult.jnull ∧
    calculateNbackAnswer 4 [4] 1 = JSResult.jnan := by
  constructor <;> decide

/-- C3 (amended): the oracle returns `currentDigit + sequence[length-1-nback]`
once `length ≥ nback + 1` and returns `null` only when `length < nback`;
at the boundary `length = nback` it instead returns the `NaN` of an
out-of-range read.  Every created trial nevertheless carries
`correctAnswer = currentDigit + ` the digit N positions back, because
`presentNextNumber` creates trials only when `length ≥ nback + 1`. -/
theorem oracle_and_created_trials (cur : Int) (seq : List Int) (nb : Nat)
    (s : SessionState) (d : Int)
    (hact : s.sessionActive = true)
    (hsched : s.nextNumberScheduled = false)
    (hdeep : s.nbackValue ≤ s.numberSequence.length) :
    (seq.length < nb → calculateNbackAnswer cur seq nb = JSResult.jnull) ∧
    (seq.length = nb → calculateNbackAnswer cur seq nb = JSResult.jnan) ∧
    (nb + 1 ≤ seq.length →
      calculateNbackAnswer cur seq nb =
        JSResult.jnum (cur + seq.getD (seq.length - nb - 1) 0)) ∧
    ((presentStep s d true).sessionHistory.getLast?.map
        (fun t => (t.correctAnswer, t.currentNumber, t.previousNumber)) =
      some (d + (s.numberSequence ++ [d]).getD (s.numberSequence.length - s.nbackValue) 0,
        d, (s.numberSequence ++ [d]).getD (s.numberSequence.length - s.nbackValue) 0)) := by
  refine ⟨?_, ?_, ?_, ?_⟩
  · intro h
    unfold calculateNbackAnswer
    rw [if_pos h]
  · intro h
    unfold calculateNbackAnswer
    rw [if_neg (by omega), if_neg (by rintro ⟨h0, h1⟩; omega)]
  · intro h
    exact calculateNbackAnswer_guarded cur seq nb h
  · have hguard : s.nbackValue + 1 ≤ (s.numberSequence ++ [d]).length := by
      simp; omega
    have hidx : (s.numberSequence ++ [d]).length - s.nbackValue - 1 =
        s.numberSequence.length - s.nbackValue := by
      simp; omega
    unfold presentStep
    rw [if_neg (by simp [hact]), if_neg (by simp [hsched]), if_neg (by simp),
      if_pos hguard, calculateNbackAnswer_guarded d _ _ hguard, hidx]
    simp [List.getLast?_concat]

/-- Witness for C3 (amended) at the spec's own scenario: N-back 1,
sequence `[4, 7]`, next digit 2, so the created trial's correct answer is
2 + 7 = 9. -/
theorem oracle_and_created_trials_witness :
    (([4, 7, 2] : List Int).length < 1 →
      calculateNbackAnswer 2 [4, 7, 2] 1 = JSResult.jnull) ∧
    (([4, 7, 2] : List Int).length = 1 →
      calculateNbackAnswer 2 [4, 7, 2] 1 = JSResult.jnan) ∧
    (1 + 1 ≤ ([4, 7, 2] : List Int).length →
      calculateNbackAnswer 2 [4, 7, 2] 1 =
        JSResult.jnum (2 + ([4, 7, 2] : List Int).getD
          (([4, 7, 2] : List Int).length - 1 - 1) 0)) ∧
    ((presentStep exState 2 true).sessionHistory.getLast?.map
        (fun t => (t.correctAnswer, t.currentNumber, t.previousNumber)) =
      some (2 + (exState.numberSequence ++ [2]).getD
          (exState.numberSequence.length - exState.nbackValue) 0,
        2, (exState.numberSequence ++ [2]).getD
          (exState.numberSequence.length - exState.nbackValue) 0)) :=
  oracle_and_created_trials 2 [4, 7, 2] 1 exState 2 rfl rfl (by decide)

/-- Witness for C8 at a concrete scoreboard with both streaks at 3. -/
theorem streaks_of_four_adjust_isi_witness :
    (scoreResolution false 3000 true
      { exScore with consecutiveCorrect := 3, consecutiveIncorrect := 3 }).currentISIValue =
      max 500 (3000 - 100) ∧
    (scoreResolution false 3000 true
      { exScore with consecutiveCorrect := 3, consecutiveIncorrect := 3 }).consecutiveCorrect = 0 ∧
    (scoreResolution false 3000 true
      { exScore with consecutiveCorrect := 3, consecutiveIncorrect := 3 }).lowestISI =
      min 3000 (max 500 (3000 - 100)) ∧
    (scoreResolution false 3000 false
      { exScore with consecutiveCorrect := 3, consecutiveIncorrect := 3 }).currentISIValue =
      min 5000 (3000 + 100) ∧
    (scoreResolution false 3000 false
      { exScore with consecutiveCorrect := 3, consecutiveIncorrect := 3 }).consecutiveIncorrect = 0 ∧
    (scoreNoAnswerLate false
      { exScore with consecutiveCorrect := 3, consecutiveIncorrect := 3 }).currentISIValue =
      min 5000 (3000 + 100) ∧
    (scoreNoAnswerLate false
      { exScore with consecutiveCorrect := 3, consecutiveIncorrect := 3 }).consecutiveIncorrect = 0 :=
  streaks_of_four_adjust_isi _ 3000 (by decide) (by decide)
